import Mathlib

/-!
Verification of the Phase 4 routine-creation service
(`app/services/routine_creation_service.py`).

The embedding models Python values flowing through the service as a
JSON-like inductive type `Value`.  Python `datetime` objects are the
`vDatetime` constructor, carrying the string that `isoformat()` would
produce for them.  Python dicts are insertion-ordered association lists
(Python 3.7+ guarantees insertion order), Python lists are Lean lists.

Fallible Python code is modelled with `Except`: a raised exception is an
`error` value, and a `try/except` block is a `match` on the result of the
code it guards.  `fastapi.HTTPException` subclasses `Exception`, so the
blanket `except Exception` handlers in the source catch it like any other
exception; `str` of an `HTTPException` renders as `"<status>: <detail>"`
(starlette behaviour).
-/

/-- A Python value as seen by the service: JSON scalars, datetimes,
insertion-ordered dicts and lists. -/
inductive Value where
  | vNull : Value
  | vBool (b : Bool) : Value
  | vInt (n : Int) : Value
  | vStr (s : String) : Value
  | vDatetime (iso : String) : Value
  | vDict (entries : List (String × Value)) : Value
  | vList (items : List Value) : Value
deriving Repr

/-- Keys of a Python dict, in insertion order. -/
def dictKeys (es : List (String × Value)) : List String := es.map Prod.fst

/-- Python `k in d` membership test on a dict. -/
def dictHasKey (es : List (String × Value)) (k : String) : Bool :=
  es.any (fun kv => kv.1 == k)

/-- Python `d.get(k, default)`. -/
def dictGetD (es : List (String × Value)) (k : String) (d : Value) : Value :=
  match es.find? (fun kv => kv.1 == k) with
  | some kv => kv.2
  | none => d

/-- Python `d[k] = v`: overwrite in place if the key exists (a Python dict
holds a key at most once, so overwriting the first occurrence suffices),
else append at the end (insertion order). -/
def dictSet : List (String × Value) → String → Value → List (String × Value)
  | [], k, v => [(k, v)]
  | kv :: rest, k, v => if kv.1 == k then (k, v) :: rest else kv :: dictSet rest k v

/-- Python truthiness of a value (`if not x`). -/
def pyFalsy : Value → Bool
  | .vNull => true
  | .vBool b => !b
  | .vInt n => n == 0
  | .vStr s => s == ""
  | .vDatetime _ => false
  | .vDict es => es.isEmpty
  | .vList xs => xs.isEmpty

mutual
/-- `Phase4Service.sanitize_datetime_objects`: recursively convert datetime
objects to ISO format strings; recurse into dicts (values only, keys kept)
and lists; every other value is returned as-is. -/
def sanitize : Value → Value
  | .vDatetime iso => .vStr iso
  | .vDict es => .vDict (sanitizeEntries es)
  | .vList xs => .vList (sanitizeItems xs)
  | .vNull => .vNull
  | .vBool b => .vBool b
  | .vInt n => .vInt n
  | .vStr s => .vStr s

/-- Dict comprehension `{key: sanitize(value) for key, value in data.items()}`. -/
def sanitizeEntries : List (String × Value) → List (String × Value)
  | [] => []
  | (k, v) :: rest => (k, sanitize v) :: sanitizeEntries rest

/-- List comprehension `[sanitize(item) for item in data]`. -/
def sanitizeItems : List Value → List Value
  | [] => []
  | v :: rest => sanitize v :: sanitizeItems rest
end

mutual
/-- Nesting depth of a value: scalars have depth 0, containers one more
than their deepest member. -/
def Value.depth : Value → Nat
  | .vDict es => entriesDepth es + 1
  | .vList xs => itemsDepth xs + 1
  | _ => 0

def entriesDepth : List (String × Value) → Nat
  | [] => 0
  | kv :: rest => max kv.2.depth (entriesDepth rest)

def itemsDepth : List Value → Nat
  | [] => 0
  | v :: rest => max v.depth (itemsDepth rest)
end

mutual
/-- True when no datetime object occurs anywhere inside the value. -/
def datetimeFree : Value → Bool
  | .vDatetime _ => false
  | .vDict es => entriesDatetimeFree es
  | .vList xs => itemsDatetimeFree xs
  | _ => true

def entriesDatetimeFree : List (String × Value) → Bool
  | [] => true
  | kv :: rest => datetimeFree kv.2 && entriesDatetimeFree rest

def itemsDatetimeFree : List Value → Bool
  | [] => true
  | v :: rest => datetimeFree v && itemsDatetimeFree rest
end

/-- Python `str.title()` restricted to ASCII letters: a letter that follows
a non-letter is uppercased, any other letter is lowercased, non-letters pass
through and reset the word boundary. -/
def pyTitleGo : Bool → List Char → List Char
  | _, [] => []
  | prevCased, c :: rest =>
    if c.isAlpha then
      (if prevCased then c.toLower else c.toUpper) :: pyTitleGo true rest
    else
      c :: pyTitleGo false rest

def pyTitle (s : String) : String := ⟨pyTitleGo false s.data⟩

/-- Python `s.replace(old, new)` for a one-character pattern and
replacement (the only form the source uses: `category.replace("_", " ")`):
every occurrence of the character is replaced. -/
def pyReplaceChar (s : String) (old new : Char) : String :=
  ⟨s.data.map (fun c => if c == old then new else c)⟩

/-- Whether a value is a Python dict (`isinstance(x, dict)`). -/
def Value.isDict : Value → Bool
  | .vDict _ => true
  | _ => false

/-- The `required_fields` list used by `create_routine`. -/
def requiredFields : List String :=
  ["name", "tag", "description", "instructions", "duration", "waiting_time", "days", "time"]

/-- The all-true weekday dict used as the default for the `days` field. -/
def defaultDays : Value :=
  .vDict [("monday", .vBool true), ("tuesday", .vBool true), ("wednesday", .vBool true),
    ("thursday", .vBool true), ("friday", .vBool true), ("saturday", .vBool true),
    ("sunday", .vBool true)]

/-- The default value `create_routine` synthesizes for a missing field, given
the category name and `len(routine_list)` at the moment of filling. -/
def defaultFor (field : String) (category : String) (nAccepted : Nat) : Value :=
  if field == "name" then .vStr ("Step " ++ toString (nAccepted + 1))
  else if field == "tag" then .vStr (pyTitle (pyReplaceChar category '_' ' '))
  else if field == "description" then .vStr ("Apply " ++ pyReplaceChar category '_' ' ')
  else if field == "instructions" then .vList [.vStr "Apply as directed"]
  else if field == "duration" then .vInt 30
  else if field == "waiting_time" then .vInt 300
  else if field == "days" then defaultDays
  else if field == "time" then .vList [.vStr "morning"]
  else .vNull

/-- One iteration of the `for field in required_fields` loop: if the field is
absent from the step data, assign the default. -/
def fillStep (category : String) (nAccepted : Nat) (sd : List (String × Value))
    (field : String) : List (String × Value) :=
  if dictHasKey sd field then sd else dictSet sd field (defaultFor field category nAccepted)

/-- The whole field-defaulting loop over `required_fields`. -/
def fillMissing (category : String) (nAccepted : Nat) (sd : List (String × Value)) :
    List (String × Value) :=
  requiredFields.foldl (fillStep category nAccepted) sd

/-- The `for category, step_data in routine_data.items()` loop: dict-valued
step data is completed and appended to `routine_list`; anything else is
skipped. -/
def processEntries : List (String × Value) → List Value → List Value
  | [], routineList => routineList
  | (category, stepData) :: rest, routineList =>
    match stepData with
    | .vDict sd =>
      processEntries rest (routineList ++ [.vDict (fillMissing category routineList.length sd)])
    | _ => processEntries rest routineList

/-- Key-selection policy for a dict-shaped parsed response: the value under
`"routine"` if that key exists, else the value under `"skincare_routine"`,
else the whole dict. -/
def chooseCollection (entries : List (String × Value)) : Value :=
  if dictHasKey entries "routine" then dictGetD entries "routine" .vNull
  else if dictHasKey entries "skincare_routine" then dictGetD entries "skincare_routine" .vNull
  else .vDict entries

/-- Python type name of a value, as it appears in runtime error messages. -/
def pyTypeName : Value → String
  | .vNull => "NoneType"
  | .vBool _ => "bool"
  | .vInt _ => "int"
  | .vStr _ => "str"
  | .vDatetime _ => "datetime.datetime"
  | .vDict _ => "dict"
  | .vList _ => "list"

/-- A raised `fastapi.HTTPException` (status code and detail string). -/
structure HTTPExc where
  status_code : Nat
  detail : String
deriving Repr, DecidableEq

/-- An exception in flight inside the service. -/
inductive PyErr where
  | httpExc (e : HTTPExc)
  | valueError (msg : String)
  | attributeError (msg : String)
  | validationError (msg : String)
deriving Repr, DecidableEq

/-- Python `str(e)` on an exception; starlette renders an `HTTPException`
as `"<status>: <detail>"`. -/
def PyErr.str : PyErr → String
  | .httpExc e => toString e.status_code ++ ": " ++ e.detail
  | .valueError m => m
  | .attributeError m => m
  | .validationError m => m

/-- Lines 171-218 of the source: turn the parsed response into the list of
routine steps.  For a dict, pick the collection and run the item loop; a
non-dict collection makes `.items()` raise `AttributeError`; a parsed list
is returned as-is; any other parsed value is wrapped in a singleton list. -/
def normalizeRoutine : Value → Except PyErr (List Value)
  | .vDict entries =>
    match chooseCollection entries with
    | .vDict stepEntries => .ok (processEntries stepEntries [])
    | v => .error (.attributeError
        ("\x27" ++ pyTypeName v ++ "\x27 object has no attribute \x27items\x27"))
  | .vList xs => .ok xs
  | v => .ok [v]

/-- The accepted (dict-valued) entries of a step collection, paired with
their dict contents, in iteration order. -/
def acceptedSteps (stepEntries : List (String × Value)) :
    List (String × List (String × Value)) :=
  stepEntries.filterMap (fun kv =>
    match kv.2 with
    | .vDict sd => some (kv.1, sd)
    | _ => none)

/-- Specification form of the item loop: the step produced for the accepted
entry at position `i` (counting from `n`) is its data with missing fields
filled using ordinal `n + i`. -/
def emitFrom (n : Nat) : List (String × List (String × Value)) → List Value
  | [] => []
  | (category, sd) :: rest => .vDict (fillMissing category n sd) :: emitFrom (n + 1) rest

/-- A normalized step carries every one of the required fields. -/
def hasAllRequired : Value → Bool
  | .vDict sd => requiredFields.all (fun f => dictHasKey sd f)
  | _ => false

/-- A product-experience pair from the user profile. -/
structure ProductExperience where
  product : String
  experience : String
deriving Repr, DecidableEq

/-- The validated user profile, as held by the `FormData` model. -/
structure FormData where
  skin_type : List String
  skin_conditions : List String
  allergies : List String
  product_experiences : List ProductExperience
  goals : List String
  custom_goal : Option String
deriving Repr, DecidableEq

/-- A JSON list all of whose members are strings, read as a string list. -/
def strListOf : List Value → Option (List String)
  | [] => some []
  | .vStr s :: rest => (strListOf rest).map (fun l => s :: l)
  | _ => none

def asStrList : Value → Option (List String)
  | .vList xs => strListOf xs
  | _ => none

def expListOf : List Value → Option (List ProductExperience)
  | [] => some []
  | .vDict es :: rest =>
    match dictGetD es "product" .vNull, dictGetD es "experience" .vNull with
    | .vStr p, .vStr e => (expListOf rest).map (fun l => ⟨p, e⟩ :: l)
    | _, _ => none
  | _ => none

def asExperiences : Value → Option (List ProductExperience)
  | .vList xs => expListOf xs
  | _ => none

/-- An optional free-text field: absent (null) or a string. -/
def asOptStr : Value → Option (Option String)
  | .vNull => some none
  | .vStr s => some (some s)
  | _ => none

/-- Modelled from the spec: the `FormData` pydantic model lives in
`app/models/skincare/form_schemas.py`, which is not under `src/`.  Spec
section 3 gives its shape (skin type, skin conditions and allergies as
string collections, product experiences as product/experience pairs, goals,
and an optional free-text custom goal) and spec section 4.5 states that
construction fails with a ValidationError when `form_data` is absent or
malformed. -/
def parseFormData : Value → Except String FormData
  | .vDict es =>
    match asStrList (dictGetD es "skin_type" .vNull),
          asStrList (dictGetD es "skin_conditions" .vNull),
          asStrList (dictGetD es "allergies" .vNull),
          asExperiences (dictGetD es "product_experiences" .vNull),
          asStrList (dictGetD es "goals" .vNull),
          asOptStr (dictGetD es "custom_goal" .vNull) with
    | some st, some sc, some al, some pe, some gl, some cg =>
      .ok ⟨st, sc, al, pe, gl, cg⟩
    | _, _, _, _, _, _ => .error "validation error for FormData"
  | _ => .error "form_data is not a mapping"

/-- Python `repr` of a string (single-quoted), as it appears when a list of
strings is interpolated into an f-string. -/
def pyReprStr (s : String) : String := "\x27" ++ s ++ "\x27"

/-- Python `str` of a list of strings. -/
def pyListRepr (l : List String) : String :=
  "[" ++ String.intercalate ", " (l.map pyReprStr) ++ "]"

/-- Python truthiness of the optional custom goal (`None` and `""` are
falsy), used when it is appended to the goal list. -/
def goalList (fd : FormData) : List String :=
  fd.goals ++ (match fd.custom_goal with
    | some s => if s == "" then [] else [s]
    | none => [])

/-- The `user_profile` f-string of `get_routine_for_user`. -/
def buildUserProfile (fd : FormData) : String :=
  "\n    User Profile:\n    - Skin Type: " ++ String.intercalate ", " fd.skin_type
  ++ "\n    - Skin Conditions: " ++ String.intercalate ", " fd.skin_conditions
  ++ "\n    - Allergies: " ++ String.intercalate ", " fd.allergies
  ++ "\n    - Product Experiences: "
  ++ pyListRepr (fd.product_experiences.map (fun p => p.product ++ " (" ++ p.experience ++ ")"))
  ++ "\n    - Goals: " ++ String.intercalate ", " (goalList fd)
  ++ "\n    "

/-- JSON escaping of one character, as `json.dumps` performs it. -/
def jsonEscapeChar (c : Char) : String :=
  if c == '"' then "\\\""
  else if c == '\\' then "\\\\"
  else if c == '\n' then "\\n"
  else if c == '\t' then "\\t"
  else if c == '\r' then "\\r"
  else String.singleton c

def jsonEscape (s : String) : String := String.join (s.data.map jsonEscapeChar)

def indentSpaces (n : Nat) : String := String.mk (List.replicate n ' ')

mutual
/-- `json.dumps(v, indent=2)` at a given nesting level.  (A datetime can
never reach this point, because the recommendations are sanitized first;
it is rendered as its quoted ISO string to keep the function total.) -/
def jsonDumps (v : Value) (level : Nat) : String :=
  match v with
  | .vNull => "null"
  | .vBool true => "true"
  | .vBool false => "false"
  | .vInt n => toString n
  | .vStr s => "\"" ++ jsonEscape s ++ "\""
  | .vDatetime iso => "\"" ++ jsonEscape iso ++ "\""
  | .vDict [] => "\x7b\x7d"
  | .vDict es => "\x7b\n" ++ dumpEntries es (level + 1) ++ "\n" ++ indentSpaces (2 * level) ++ "\x7d"
  | .vList [] => "[]"
  | .vList xs => "[\n" ++ dumpItems xs (level + 1) ++ "\n" ++ indentSpaces (2 * level) ++ "]"

def dumpEntries : List (String × Value) → Nat → String
  | [], _ => ""
  | [(k, v)], lvl => indentSpaces (2 * lvl) ++ "\"" ++ jsonEscape k ++ "\": " ++ jsonDumps v lvl
  | (k, v) :: rest, lvl =>
    indentSpaces (2 * lvl) ++ "\"" ++ jsonEscape k ++ "\": " ++ jsonDumps v lvl
      ++ ",\n" ++ dumpEntries rest lvl

def dumpItems : List Value → Nat → String
  | [], _ => ""
  | [v], lvl => indentSpaces (2 * lvl) ++ jsonDumps v lvl
  | v :: rest, lvl => indentSpaces (2 * lvl) ++ jsonDumps v lvl ++ ",\n" ++ dumpItems rest lvl
end

/-- The fixed prompt text before the interpolated `user_profile`. -/
def promptPrefix : String :=
  "\n    You are a skincare assistant creating a personalized skincare routine for a user.\n\n    User Profile:\n    "

/-- The fixed prompt text between the profile and the recommendations. -/
def promptMiddle : String := "\n\n    Products:\n    "

/-- The fixed prompt text after the recommendations: the instruction block
and the two literal worked examples (the doubled braces of the source
f-string are single literal braces here). -/
def promptTail : String :=
  "\n\n    Instructions:\n"
  ++ "    - For each product, create a step-by-step usage instruction.\n"
  ++ "    - Provide a brief description (e.g., \x27Gentle Hydrating Cleanser: Ideal for daily use, removes dirt and impurities\x27).\n"
  ++ "    - Include days for usage (e.g., \x27monday\x27, \x27tuesday\x27, \x27wednesday\x27, etc.).\n"
  ++ "    - Specify the time(s) of use in an array (e.g., [\"morning\", \"night\"] if it is used twice a day).\n"
  ++ "    - Provide the duration in seconds (e.g., 30 for cleanser).\n"
  ++ "    - Provide the waiting time in seconds between products (e.g., 900 for waiting 15 minutes).\n"
  ++ "    - Only provide the raw JSON without markdown or extra commentary.\n"
  ++ "\n    Example:\n"
  ++ "    \"cleanser\": \x7b\n"
  ++ "        \"name\": \"CeraVe Renewing SA Cleanser\",\n"
  ++ "        \"tag\": \"Gentle Hydrating Cleanser\",\n"
  ++ "        \"description\": \"Ideal for daily use, removes dirt and impurities\",\n"
  ++ "        \"instructions\": [\n"
  ++ "            \"Wet face with lukewarm water.\",\n"
  ++ "            \"Apply a small amount to face and neck.\",\n"
  ++ "            \"Massage in circular motions.\",\n"
  ++ "            \"Rinse thoroughly.\"\n"
  ++ "        ],\n"
  ++ "        \"duration\": 30,\n"
  ++ "        \"waiting_time\": 900,\n"
  ++ "        \"days\": \x7b\n"
  ++ "            \"monday\": true,\n"
  ++ "            \"tuesday\": true,\n"
  ++ "            \"wednesday\": true,\n"
  ++ "            \"thursday\": true,\n"
  ++ "            \"friday\": true,\n"
  ++ "            \"saturday\": true,\n"
  ++ "            \"sunday\": true\n"
  ++ "        \x7d,\n"
  ++ "        \"time\": [\"morning\"]\n"
  ++ "    \x7d,\n"
  ++ "    \"moisturizer\": \x7b\n"
  ++ "        \"name\": \"Neutrogena Hydro Boost Water Gel\",\n"
  ++ "        \"tag\": \"Hyaluronic Acid Moisturizer\",\n"
  ++ "        \"description\": \"Hydrates and replenishes moisture\",\n"
  ++ "        \"instructions\": [\n"
  ++ "            \"Take a small amount and gently apply to face and neck.\",\n"
  ++ "            \"Massage in upward circular motions.\"\n"
  ++ "        ],\n"
  ++ "        \"duration\": 20,\n"
  ++ "        \"waiting_time\": 600,\n"
  ++ "        \"days\": \x7b\n"
  ++ "            \"monday\": true,\n"
  ++ "            \"tuesday\": true,\n"
  ++ "            \"wednesday\": true,\n"
  ++ "            \"thursday\": true,\n"
  ++ "            \"friday\": true,\n"
  ++ "            \"saturday\": true,\n"
  ++ "            \"sunday\": true\n"
  ++ "        \x7d,\n"
  ++ "        \"time\": [\"morning\", \"night\"]\n"
  ++ "    \x7d\n    "

/-- The complete prompt assembled by `get_routine_for_user` from the user
profile and the (already sanitized) recommendations. -/
def buildPrompt (fd : FormData) (sanitizedRecs : Value) : String :=
  promptPrefix ++ buildUserProfile fd ++ promptMiddle
    ++ jsonDumps sanitizedRecs 0 ++ promptTail

/-- Characters Python `str.strip()` removes. -/
def isPySpace (c : Char) : Bool :=
  c == ' ' || c == '\t' || c == '\n' || c == '\r' || c == Char.ofNat 11 || c == Char.ofNat 12

/-- Python `s.strip()`. -/
def pyStrip (s : String) : String :=
  ⟨((s.data.dropWhile isPySpace).reverse.dropWhile isPySpace).reverse⟩

/-- Python `s.strip("` + "`" + `")`: backticks removed from both ends. -/
def pyStripBackticks (s : String) : String :=
  ⟨((s.data.dropWhile (fun c => c == Char.ofNat 96)).reverse.dropWhile
      (fun c => c == Char.ofNat 96)).reverse⟩

/-- Python `s.startswith(pre)`. -/
def pyStartsWith (s pre : String) : Bool := pre.data.isPrefixOf s.data

/-- Python `s[n:]` (drop the first `n` characters). -/
def pyDropChars (s : String) (n : Nat) : String := ⟨s.data.drop n⟩

/-- Lines 138-143 of the source: trim the raw LLM text, strip a code fence
if present, and strip a `json` language label after the opening fence. -/
def stripFences (text : String) : String :=
  let raw := pyStrip text
  if pyStartsWith raw "```" then
    let raw2 := pyStrip (pyStripBackticks raw)
    if pyStartsWith raw2 "json" then pyStrip (pyDropChars raw2 4) else raw2
  else raw

/-- The body of the `try` block of `get_routine_for_user`, parameterized by
the LLM text oracle and the JSON parser: check model availability, call the
model, strip fences, reject an empty reply, parse.  Each failure is the
exception the source raises there. -/
def routineAttempt (llm : String → String) (jsonLoads : String → Option Value)
    (modelAvailable : Bool) (prompt : String) : Except PyErr Value :=
  if !modelAvailable then
    .error (.httpExc ⟨500, "AI model not available. Please install google-generativeai package."⟩)
  else
    let raw := stripFences (llm prompt)
    if raw == "" then
      .error (.valueError "Received an empty response from the AI model.")
    else
      match jsonLoads raw with
      | some v => .ok v
      | none => .error (.valueError "Expecting value")

/-- `Phase4Service.get_routine_for_user`: sanitize the recommendations,
build the prompt, run the LLM attempt; the blanket `except Exception`
replaces every failure with `HTTPException(500, "Failed to create skincare
routine")`. -/
def get_routine_for_user (llm : String → String) (jsonLoads : String → Option Value)
    (modelAvailable : Bool) (fd : FormData) (recs : Value) : Except HTTPExc Value :=
  match routineAttempt llm jsonLoads modelAvailable (buildPrompt fd (sanitize recs)) with
  | .ok v => .ok v
  | .error _ => .error ⟨500, "Failed to create skincare routine"⟩

/-- The body of the `try` block of `create_routine`: validate the form
data, require non-empty recommendations (an `HTTPException` with status
400), obtain the parsed routine, normalize it, and wrap the step list with
the `product_type` discriminator. -/
def create_routine_inner (llm : String → String) (jsonLoads : String → Option Value)
    (modelAvailable : Bool) (data : List (String × Value)) : Except PyErr Value :=
  match parseFormData (dictGetD data "form_data" (.vDict [])) with
  | .error m => .error (.validationError m)
  | .ok fd =>
    let recs := dictGetD data "product_recommendations" (.vDict [])
    if pyFalsy recs then
      .error (.httpExc ⟨400, "No product recommendations provided"⟩)
    else
      match get_routine_for_user llm jsonLoads modelAvailable fd recs with
      | .error e => .error (.httpExc e)
      | .ok routine =>
        match normalizeRoutine routine with
        | .error e => .error e
        | .ok steps =>
          .ok (.vDict [("product_type", .vStr "custom"), ("routine", .vList steps)])

/-- `Phase4Service.create_routine`: the blanket `except Exception` turns
every failure `e` raised inside the body, the 400 `HTTPException` included,
into `HTTPException(500, "Failed to create skincare routine: " + str(e))`. -/
def create_routine (llm : String → String) (jsonLoads : String → Option Value)
    (modelAvailable : Bool) (data : List (String × Value)) : Except HTTPExc Value :=
  match create_routine_inner llm jsonLoads modelAvailable data with
  | .ok v => .ok v
  | .error e => .error ⟨500, "Failed to create skincare routine: " ++ PyErr.str e⟩

/-- A sample valid user profile used by the concrete witnesses. -/
def fdSample : FormData := ⟨["oily"], [], [], [], ["hydration"], none⟩

/-- A sample payload with valid form data and an empty
`product_recommendations` mapping. -/
def payloadNoRecs : List (String × Value) :=
  [("form_data", Value.vDict [("skin_type", Value.vList [Value.vStr "oily"]),
      ("skin_conditions", Value.vList []), ("allergies", Value.vList []),
      ("product_experiences", Value.vList []),
      ("goals", Value.vList [Value.vStr "hydration"])]),
   ("product_recommendations", Value.vDict [])]

/-- A sample payload with valid form data and a non-empty recommendations
mapping. -/
def payloadWithRecs : List (String × Value) :=
  [("form_data", Value.vDict [("skin_type", Value.vList [Value.vStr "oily"]),
      ("skin_conditions", Value.vList []), ("allergies", Value.vList []),
      ("product_experiences", Value.vList []),
      ("goals", Value.vList [Value.vStr "hydration"])]),
   ("product_recommendations", Value.vDict [("cleanser", Value.vDict [("name", Value.vStr "X")])])]

mutual
theorem sanitize_depth (v : Value) : (sanitize v).depth = v.depth := by
  cases v with
  | vDict es => simpa [sanitize, Value.depth] using sanitizeEntries_depth es
  | vList xs => simpa [sanitize, Value.depth] using sanitizeItems_depth xs
  | vDatetime iso => rfl
  | vNull => rfl
  | vBool b => rfl
  | vInt n => rfl
  | vStr s => rfl

theorem sanitizeEntries_depth (es : List (String × Value)) :
    entriesDepth (sanitizeEntries es) = entriesDepth es := by
  cases es with
  | nil => rfl
  | cons kv rest =>
    obtain ⟨k, v⟩ := kv
    simp [sanitizeEntries, entriesDepth, sanitize_depth v, sanitizeEntries_depth rest]

theorem sanitizeItems_depth (xs : List Value) :
    itemsDepth (sanitizeItems xs) = itemsDepth xs := by
  cases xs with
  | nil => rfl
  | cons v rest => simp [sanitizeItems, itemsDepth, sanitize_depth v, sanitizeItems_depth rest]
end

mutual
theorem sanitize_datetimeFree (v : Value) : datetimeFree (sanitize v) = true := by
  cases v with
  | vDict es => simpa [sanitize, datetimeFree] using sanitizeEntries_datetimeFree es
  | vList xs => simpa [sanitize, datetimeFree] using sanitizeItems_datetimeFree xs
  | vDatetime iso => rfl
  | vNull => rfl
  | vBool b => rfl
  | vInt n => rfl
  | vStr s => rfl

theorem sanitizeEntries_datetimeFree (es : List (String × Value)) :
    entriesDatetimeFree (sanitizeEntries es) = true := by
  cases es with
  | nil => rfl
  | cons kv rest =>
    obtain ⟨k, v⟩ := kv
    simp [sanitizeEntries, entriesDatetimeFree, sanitize_datetimeFree v,
      sanitizeEntries_datetimeFree rest]

theorem sanitizeItems_datetimeFree (xs : List Value) :
    itemsDatetimeFree (sanitizeItems xs) = true := by
  cases xs with
  | nil => rfl
  | cons v rest =>
    simp [sanitizeItems, itemsDatetimeFree, sanitize_datetimeFree v,
      sanitizeItems_datetimeFree rest]
end

theorem sanitizeEntries_keys (es : List (String × Value)) :
    dictKeys (sanitizeEntries es) = dictKeys es := by
  induction es with
  | nil => rfl
  | cons kv rest ih =>
    obtain ⟨k, v⟩ := kv
    simp [sanitizeEntries, dictKeys] at ih ⊢
    exact ih

theorem sanitizeItems_length (xs : List Value) :
    (sanitizeItems xs).length = xs.length := by
  induction xs with
  | nil => rfl
  | cons v rest ih => simp [sanitizeItems, ih]

mutual
theorem sanitize_idem (v : Value) : sanitize (sanitize v) = sanitize v := by
  cases v with
  | vDict es => simpa [sanitize] using sanitizeEntries_idem es
  | vList xs => simpa [sanitize] using sanitizeItems_idem xs
  | vDatetime iso => rfl
  | vNull => rfl
  | vBool b => rfl
  | vInt n => rfl
  | vStr s => rfl

theorem sanitizeEntries_idem (es : List (String × Value)) :
    sanitizeEntries (sanitizeEntries es) = sanitizeEntries es := by
  cases es with
  | nil => rfl
  | cons kv rest =>
    obtain ⟨k, v⟩ := kv
    simp [sanitizeEntries, sanitize_idem v, sanitizeEntries_idem rest]

theorem sanitizeItems_idem (xs : List Value) :
    sanitizeItems (sanitizeItems xs) = sanitizeItems xs := by
  cases xs with
  | nil => rfl
  | cons v rest => simp [sanitizeItems, sanitize_idem v, sanitizeItems_idem rest]
end

mutual
theorem sanitize_of_datetimeFree (v : Value) (h : datetimeFree v = true) :
    sanitize v = v := by
  cases v with
  | vDict es =>
    simp only [datetimeFree] at h
    simpa [sanitize] using sanitizeEntries_of_datetimeFree es h
  | vList xs =>
    simp only [datetimeFree] at h
    simpa [sanitize] using sanitizeItems_of_datetimeFree xs h
  | vDatetime iso => simp [datetimeFree] at h
  | vNull => rfl
  | vBool b => rfl
  | vInt n => rfl
  | vStr s => rfl

theorem sanitizeEntries_of_datetimeFree (es : List (String × Value))
    (h : entriesDatetimeFree es = true) : sanitizeEntries es = es := by
  cases es with
  | nil => rfl
  | cons kv rest =>
    obtain ⟨k, v⟩ := kv
    simp only [entriesDatetimeFree, Bool.and_eq_true] at h
    simp [sanitizeEntries, sanitize_of_datetimeFree v h.1,
      sanitizeEntries_of_datetimeFree rest h.2]

theorem sanitizeItems_of_datetimeFree (xs : List Value)
    (h : itemsDatetimeFree xs = true) : sanitizeItems xs = xs := by
  cases xs with
  | nil => rfl
  | cons v rest =>
    simp only [itemsDatetimeFree, Bool.and_eq_true] at h
    simp [sanitizeItems, sanitize_of_datetimeFree v h.1,
      sanitizeItems_of_datetimeFree rest h.2]
end

/-- Claim C5: the Sanitizer is structure-preserving: on dicts it keeps the key
list (order included) and only sanitizes the values; on lists it keeps the
length and order; nesting depth is unchanged everywhere; datetimes become
exactly their ISO string; all other scalars pass through unchanged; and
the output contains no datetime anywhere. -/
theorem sanitizer_structure_preserving :
    (∀ es, sanitize (Value.vDict es) = Value.vDict (sanitizeEntries es)
      ∧ dictKeys (sanitizeEntries es) = dictKeys es)
    ∧ (∀ xs, sanitize (Value.vList xs) = Value.vList (sanitizeItems xs)
      ∧ (sanitizeItems xs).length = xs.length)
    ∧ (∀ v, (sanitize v).depth = v.depth)
    ∧ (∀ iso, sanitize (Value.vDatetime iso) = Value.vStr iso)
    ∧ sanitize Value.vNull = Value.vNull
    ∧ (∀ b, sanitize (Value.vBool b) = Value.vBool b)
    ∧ (∀ n, sanitize (Value.vInt n) = Value.vInt n)
    ∧ (∀ s, sanitize (Value.vStr s) = Value.vStr s)
    ∧ (∀ v, datetimeFree (sanitize v) = true) :=
  ⟨fun es => ⟨rfl, sanitizeEntries_keys es⟩,
   fun xs => ⟨rfl, sanitizeItems_length xs⟩,
   sanitize_depth,
   fun _ => rfl, rfl, fun _ => rfl, fun _ => rfl, fun _ => rfl,
   sanitize_datetimeFree⟩

/-- Claim C6: the Sanitizer is idempotent (sanitizing twice equals sanitizing
once), and on datetime-free values it is the identity, so re-sanitizing an
already sanitized structure is a no-op. -/
theorem sanitizer_idempotent :
    (∀ v, sanitize (sanitize v) = sanitize v)
    ∧ (∀ v, datetimeFree v = true → sanitize v = v) :=
  ⟨sanitize_idem, sanitize_of_datetimeFree⟩

/-- Witness for C6 at a concrete nested value: a dict holding a datetime
and a list, and a datetime-free dict that sanitization leaves untouched. -/
theorem sanitizer_idempotent_witness :
    sanitize (sanitize (Value.vDict [("when", Value.vDatetime "2024-01-01T00:00:00"),
        ("tags", Value.vList [Value.vStr "a"])]))
      = sanitize (Value.vDict [("when", Value.vDatetime "2024-01-01T00:00:00"),
        ("tags", Value.vList [Value.vStr "a"])])
    ∧ datetimeFree (Value.vDict [("name", Value.vStr "X")]) = true
    ∧ sanitize (Value.vDict [("name", Value.vStr "X")])
      = Value.vDict [("name", Value.vStr "X")] :=
  ⟨sanitizer_idempotent.1 _, by decide,
   sanitizer_idempotent.2 _ (by decide)⟩

theorem find?_dictSet_self (es : List (String × Value)) (k : String) (v : Value) :
    (dictSet es k v).find? (fun kv => kv.1 == k) = some (k, v) := by
  induction es with
  | nil => simp [dictSet]
  | cons kv rest ih =>
    by_cases h : kv.1 == k
    · simp [dictSet, h, List.find?]
    · simp only [dictSet]
      rw [if_neg (by simpa using h)]
      simpa [List.find?, h] using ih

theorem find?_dictSet_ne (es : List (String × Value)) (k k' : String) (v : Value)
    (h : k' ≠ k) :
    (dictSet es k v).find? (fun kv => kv.1 == k')
      = es.find? (fun kv => kv.1 == k') := by
  have hkk : (k == k') = false := by simpa using (Ne.symm h)
  induction es with
  | nil => simp [dictSet, List.find?, hkk]
  | cons kv rest ih =>
    by_cases hh : kv.1 == k
    · have hkv : kv.1 = k := by simpa using hh
      have : (kv.1 == k') = false := by simp [hkv]; exact Ne.symm h
      simp [dictSet, hh, List.find?, hkk, this]
    · simp only [dictSet]
      rw [if_neg (by simpa using hh)]
      by_cases hk' : kv.1 == k'
      · simp [List.find?, hk']
      · simp [List.find?, hk', ih]

theorem dictHasKey_eq_isSome (es : List (String × Value)) (k : String) :
    dictHasKey es k = (es.find? (fun kv => kv.1 == k)).isSome := by
  induction es with
  | nil => rfl
  | cons kv rest ih =>
    by_cases h : kv.1 == k <;> simp [dictHasKey, List.find?, h] <;>
      simpa [dictHasKey] using ih

theorem dictHasKey_dictSet_self (es : List (String × Value)) (k : String) (v : Value) :
    dictHasKey (dictSet es k v) k = true := by
  rw [dictHasKey_eq_isSome, find?_dictSet_self]; rfl

theorem dictHasKey_dictSet_ne (es : List (String × Value)) (k k' : String) (v : Value)
    (h : k' ≠ k) : dictHasKey (dictSet es k v) k' = dictHasKey es k' := by
  rw [dictHasKey_eq_isSome, dictHasKey_eq_isSome, find?_dictSet_ne es k k' v h]

theorem dictGetD_dictSet_self (es : List (String × Value)) (k : String) (v d : Value) :
    dictGetD (dictSet es k v) k d = v := by
  simp [dictGetD, find?_dictSet_self]

theorem dictGetD_dictSet_ne (es : List (String × Value)) (k k' : String) (v d : Value)
    (h : k' ≠ k) : dictGetD (dictSet es k v) k' d = dictGetD es k' d := by
  simp [dictGetD, find?_dictSet_ne es k k' v h]

theorem fillStep_hasKey_self (c : String) (n : Nat) (sd : List (String × Value))
    (f : String) : dictHasKey (fillStep c n sd f) f = true := by
  unfold fillStep
  by_cases h : dictHasKey sd f
  · simpa [h]
  · simp [h, dictHasKey_dictSet_self]

theorem fillStep_hasKey_mono (c : String) (n : Nat) (sd : List (String × Value))
    (f k : String) (h : dictHasKey sd k = true) :
    dictHasKey (fillStep c n sd f) k = true := by
  unfold fillStep
  by_cases hf : dictHasKey sd f
  · simpa [hf]
  · have hkf : k ≠ f := by
      rintro rfl
      simp [h] at hf
    simp [hf, dictHasKey_dictSet_ne _ _ _ _ hkf, h]

theorem fillStep_get_of_hasKey (c : String) (n : Nat) (sd : List (String × Value))
    (f k : String) (d : Value) (h : dictHasKey sd k = true) :
    dictGetD (fillStep c n sd f) k d = dictGetD sd k d := by
  unfold fillStep
  by_cases hf : dictHasKey sd f
  · simp [hf]
  · have hkf : k ≠ f := by
      rintro rfl
      simp [h] at hf
    simp [hf, dictGetD_dictSet_ne _ _ _ _ _ hkf]

theorem fillStep_hasKey_other (c : String) (n : Nat) (sd : List (String × Value))
    (f k : String) (h : k ≠ f) :
    dictHasKey (fillStep c n sd f) k = dictHasKey sd k := by
  unfold fillStep
  by_cases hf : dictHasKey sd f
  · simp [hf]
  · simp [hf, dictHasKey_dictSet_ne _ _ _ _ h]

theorem foldl_fillStep_preserve_hasKey (c : String) (n : Nat) (l : List String) :
    ∀ sd k, dictHasKey sd k = true →
      dictHasKey (l.foldl (fillStep c n) sd) k = true := by
  induction l with
  | nil => intro sd k h; simpa using h
  | cons g rest ih =>
    intro sd k h
    simpa [List.foldl] using ih (fillStep c n sd g) k (fillStep_hasKey_mono c n sd g k h)

theorem foldl_fillStep_preserve_get (c : String) (n : Nat) (l : List String) :
    ∀ sd k d, dictHasKey sd k = true →
      dictGetD (l.foldl (fillStep c n) sd) k d = dictGetD sd k d := by
  induction l with
  | nil => intro sd k d _; rfl
  | cons g rest ih =>
    intro sd k d h
    have h1 := fillStep_hasKey_mono c n sd g k h
    calc dictGetD ((g :: rest).foldl (fillStep c n) sd) k d
        = dictGetD (rest.foldl (fillStep c n) (fillStep c n sd g)) k d := rfl
      _ = dictGetD (fillStep c n sd g) k d := ih (fillStep c n sd g) k d h1
      _ = dictGetD sd k d := fillStep_get_of_hasKey c n sd g k d h

theorem foldl_fillStep_hasKey_mem (c : String) (n : Nat) (l : List String) :
    ∀ sd f, f ∈ l → dictHasKey (l.foldl (fillStep c n) sd) f = true := by
  induction l with
  | nil => intro sd f h; cases h
  | cons g rest ih =>
    intro sd f h
    rcases List.mem_cons.mp h with rfl | hmem
    · exact foldl_fillStep_preserve_hasKey c n rest (fillStep c n sd f) f
        (fillStep_hasKey_self c n sd f)
    · exact ih (fillStep c n sd g) f hmem

theorem foldl_fillStep_get_missing (c : String) (n : Nat) (d : Value) (l : List String) :
    l.Nodup → ∀ f, f ∈ l → ∀ sd, dictHasKey sd f = false →
      dictGetD (l.foldl (fillStep c n) sd) f d = defaultFor f c n := by
  induction l with
  | nil => intro _ f h; cases h
  | cons g rest ih =>
    intro hnd f hmem sd hmiss
    have hnd' := List.nodup_cons.mp hnd
    rcases List.mem_cons.mp hmem with rfl | hrest
    · have hset : fillStep c n sd f = dictSet sd f (defaultFor f c n) := by
        unfold fillStep; simp [hmiss]
      calc dictGetD ((f :: rest).foldl (fillStep c n) sd) f d
          = dictGetD (rest.foldl (fillStep c n) (fillStep c n sd f)) f d := rfl
        _ = dictGetD (fillStep c n sd f) f d := by
            refine foldl_fillStep_preserve_get c n rest _ f d ?_
            exact fillStep_hasKey_self c n sd f
        _ = defaultFor f c n := by rw [hset, dictGetD_dictSet_self]
    · have hfg : f ≠ g := fun h => hnd'.1 (h ▸ hrest)
      have hmiss' : dictHasKey (fillStep c n sd g) f = false := by
        rw [fillStep_hasKey_other c n sd g f hfg]; exact hmiss
      exact ih hnd'.2 f hrest (fillStep c n sd g) hmiss'

theorem requiredFields_nodup : requiredFields.Nodup := by decide

theorem fillMissing_hasKey (c : String) (n : Nat) (sd : List (String × Value))
    (f : String) (h : f ∈ requiredFields) :
    dictHasKey (fillMissing c n sd) f = true :=
  foldl_fillStep_hasKey_mem c n requiredFields sd f h

theorem fillMissing_get_missing (c : String) (n : Nat) (sd : List (String × Value))
    (f : String) (d : Value) (hmem : f ∈ requiredFields)
    (hmiss : dictHasKey sd f = false) :
    dictGetD (fillMissing c n sd) f d = defaultFor f c n :=
  foldl_fillStep_get_missing c n d requiredFields requiredFields_nodup f hmem sd hmiss

theorem fillMissing_hasAll (c : String) (n : Nat) (sd : List (String × Value)) :
    hasAllRequired (Value.vDict (fillMissing c n sd)) = true := by
  simp only [hasAllRequired, List.all_eq_true]
  intro f hf
  exact fillMissing_hasKey c n sd f hf

theorem emitFrom_length (l : List (String × List (String × Value))) :
    ∀ n, (emitFrom n l).length = l.length := by
  induction l with
  | nil => intro n; rfl
  | cons p rest ih =>
    intro n
    obtain ⟨c, sd⟩ := p
    simp [emitFrom, ih]

theorem emitFrom_hasAll (l : List (String × List (String × Value))) :
    ∀ n v, v ∈ emitFrom n l → hasAllRequired v = true := by
  induction l with
  | nil => intro n v h; cases h
  | cons p rest ih =>
    intro n v h
    obtain ⟨c, sd⟩ := p
    rcases List.mem_cons.mp h with rfl | hmem
    · exact fillMissing_hasAll c n sd
    · exact ih (n + 1) v hmem

theorem acceptedSteps_length (l : List (String × Value)) :
    (acceptedSteps l).length = l.countP (fun kv => kv.2.isDict) := by
  induction l with
  | nil => rfl
  | cons kv rest ih =>
    obtain ⟨k, v⟩ := kv
    cases v <;> simp [acceptedSteps, List.countP_cons, Value.isDict] <;>
      simpa [acceptedSteps] using ih

theorem processEntries_eq (stepEntries : List (String × Value)) :
    ∀ acc, processEntries stepEntries acc
      = acc ++ emitFrom acc.length (acceptedSteps stepEntries) := by
  induction stepEntries with
  | nil => intro acc; simp [processEntries, acceptedSteps, emitFrom]
  | cons kv rest ih =>
    intro acc
    obtain ⟨category, stepData⟩ := kv
    cases stepData with
    | vDict sd =>
      have h := ih (acc ++ [Value.vDict (fillMissing category acc.length sd)])
      simp only [processEntries, acceptedSteps, List.filterMap_cons] at h ⊢
      rw [h]
      simp [emitFrom, acceptedSteps]
    | vNull => simpa [processEntries, acceptedSteps, List.filterMap_cons, emitFrom] using ih acc
    | vBool b => simpa [processEntries, acceptedSteps, List.filterMap_cons, emitFrom] using ih acc
    | vInt n => simpa [processEntries, acceptedSteps, List.filterMap_cons, emitFrom] using ih acc
    | vStr s => simpa [processEntries, acceptedSteps, List.filterMap_cons, emitFrom] using ih acc
    | vDatetime iso => simpa [processEntries, acceptedSteps, List.filterMap_cons, emitFrom] using ih acc
    | vList xs => simpa [processEntries, acceptedSteps, List.filterMap_cons, emitFrom] using ih acc

theorem normalizeRoutine_of_dict_coll (entries stepEntries : List (String × Value))
    (h : chooseCollection entries = Value.vDict stepEntries) :
    normalizeRoutine (Value.vDict entries) = Except.ok (processEntries stepEntries []) := by
  have heq : normalizeRoutine (Value.vDict entries)
      = match chooseCollection entries with
        | Value.vDict se => Except.ok (processEntries se [])
        | v => Except.error (PyErr.attributeError
            ("\x27" ++ pyTypeName v ++ "\x27 object has no attribute \x27items\x27")) := rfl
  rw [heq, h]

theorem normalizeRoutine_of_nondict_coll (entries : List (String × Value))
    (h : (chooseCollection entries).isDict = false) :
    ∃ e, normalizeRoutine (Value.vDict entries) = Except.error e := by
  have heq : normalizeRoutine (Value.vDict entries)
      = match chooseCollection entries with
        | Value.vDict se => Except.ok (processEntries se [])
        | v => Except.error (PyErr.attributeError
            ("\x27" ++ pyTypeName v ++ "\x27 object has no attribute \x27items\x27")) := rfl
  cases hc : chooseCollection entries with
  | vDict se => rw [hc] at h; simp [Value.isDict] at h
  | vNull => exact ⟨_, by rw [heq, hc]⟩
  | vBool b => exact ⟨_, by rw [heq, hc]⟩
  | vInt n => exact ⟨_, by rw [heq, hc]⟩
  | vStr s => exact ⟨_, by rw [heq, hc]⟩
  | vDatetime iso => exact ⟨_, by rw [heq, hc]⟩
  | vList xs => exact ⟨_, by rw [heq, hc]⟩

/-- Claim C4: in the field-defaulting loop, every required field that is missing
from an accepted step-data mapping is filled with exactly the documented
default: name `"Step N"` with `N` one more than the number of steps already
appended, tag the title-cased category with underscores as spaces,
description `"Apply <category>"`, instructions `["Apply as directed"]`,
duration 30, waiting_time 300, all seven weekdays true, time `["morning"]`;
and the loop is invoked with the current output length as the ordinal. -/
theorem normalizer_missing_field_defaults (category : String) (n : Nat)
    (sd : List (String × Value)) :
    (dictHasKey sd "name" = false →
      dictGetD (fillMissing category n sd) "name" Value.vNull
        = Value.vStr ("Step " ++ toString (n + 1)))
    ∧ (dictHasKey sd "tag" = false →
      dictGetD (fillMissing category n sd) "tag" Value.vNull
        = Value.vStr (pyTitle (pyReplaceChar category '_' ' ')))
    ∧ (dictHasKey sd "description" = false →
      dictGetD (fillMissing category n sd) "description" Value.vNull
        = Value.vStr ("Apply " ++ pyReplaceChar category '_' ' '))
    ∧ (dictHasKey sd "instructions" = false →
      dictGetD (fillMissing category n sd) "instructions" Value.vNull
        = Value.vList [Value.vStr "Apply as directed"])
    ∧ (dictHasKey sd "duration" = false →
      dictGetD (fillMissing category n sd) "duration" Value.vNull = Value.vInt 30)
    ∧ (dictHasKey sd "waiting_time" = false →
      dictGetD (fillMissing category n sd) "waiting_time" Value.vNull = Value.vInt 300)
    ∧ (dictHasKey sd "days" = false →
      dictGetD (fillMissing category n sd) "days" Value.vNull
        = Value.vDict [("monday", Value.vBool true), ("tuesday", Value.vBool true),
            ("wednesday", Value.vBool true), ("thursday", Value.vBool true),
            ("friday", Value.vBool true), ("saturday", Value.vBool true),
            ("sunday", Value.vBool true)])
    ∧ (dictHasKey sd "time" = false →
      dictGetD (fillMissing category n sd) "time" Value.vNull
        = Value.vList [Value.vStr "morning"])
    ∧ (∀ stepEntries acc, processEntries ((category, Value.vDict sd) :: stepEntries) acc
        = processEntries stepEntries
            (acc ++ [Value.vDict (fillMissing category acc.length sd)])) := by
  refine ⟨?_, ?_, ?_, ?_, ?_, ?_, ?_, ?_, fun _ _ => rfl⟩ <;>
    (intro h; rw [fillMissing_get_missing _ _ _ _ _ (by decide) h]; rfl)

/-- Witness for C4 at the example from the spec: category
`"hydrating_toner"` with empty step data and no step yet appended gets tag
`"Hydrating Toner"`, name `"Step 1"` and duration 30. -/
theorem normalizer_missing_field_defaults_witness :
    dictHasKey ([] : List (String × Value)) "tag" = false
    ∧ dictGetD (fillMissing "hydrating_toner" 0 []) "tag" Value.vNull
        = Value.vStr "Hydrating Toner"
    ∧ dictGetD (fillMissing "hydrating_toner" 0 []) "name" Value.vNull
        = Value.vStr "Step 1"
    ∧ dictGetD (fillMissing "hydrating_toner" 0 []) "duration" Value.vNull
        = Value.vInt 30 :=
  ⟨by decide,
   by rw [(normalizer_missing_field_defaults "hydrating_toner" 0 []).2.1 (by decide)]; rfl,
   by rw [(normalizer_missing_field_defaults "hydrating_toner" 0 []).1 (by decide)]; rfl,
   by rw [(normalizer_missing_field_defaults "hydrating_toner" 0 []).2.2.2.2.1 (by decide)]⟩

/-- Claim C7: for a dict-shaped parsed value the Normalizer picks the step
collection by trying key `"routine"` first, then `"skincare_routine"`, and
otherwise uses the whole mapping; a dict-shaped collection is processed
entry by entry, and the emitted steps follow the iteration order of the
accepted entries of the chosen collection. -/
theorem normalizer_collection_selection :
    (∀ entries, dictHasKey entries "routine" = true →
      chooseCollection entries = dictGetD entries "routine" Value.vNull)
    ∧ (∀ entries, dictHasKey entries "routine" = false →
      dictHasKey entries "skincare_routine" = true →
      chooseCollection entries = dictGetD entries "skincare_routine" Value.vNull)
    ∧ (∀ entries, dictHasKey entries "routine" = false →
      dictHasKey entries "skincare_routine" = false →
      chooseCollection entries = Value.vDict entries)
    ∧ (∀ entries stepEntries, chooseCollection entries = Value.vDict stepEntries →
      normalizeRoutine (Value.vDict entries) = Except.ok (processEntries stepEntries []))
    ∧ (∀ stepEntries, processEntries stepEntries [] = emitFrom 0 (acceptedSteps stepEntries)) := by
  refine ⟨?_, ?_, ?_, normalizeRoutine_of_dict_coll, ?_⟩
  · intro entries h; simp [chooseCollection, h]
  · intro entries h1 h2; simp [chooseCollection, h1, h2]
  · intro entries h1 h2; simp [chooseCollection, h1, h2]
  · intro stepEntries
    simpa using processEntries_eq stepEntries []

/-- Witness for C7: the nested `"routine"` mapping is chosen over the outer
one, `"skincare_routine"` is used when `"routine"` is absent, the whole
mapping is used when neither key exists, and a concrete dict collection is
processed into its steps. -/
theorem normalizer_collection_selection_witness :
    dictHasKey [("routine", Value.vDict [("cleanser", Value.vDict [])])] "routine" = true
    ∧ chooseCollection [("routine", Value.vDict [("cleanser", Value.vDict [])])]
        = dictGetD [("routine", Value.vDict [("cleanser", Value.vDict [])])] "routine" Value.vNull
    ∧ chooseCollection [("skincare_routine", Value.vDict [])]
        = dictGetD [("skincare_routine", Value.vDict [])] "skincare_routine" Value.vNull
    ∧ chooseCollection [("cleanser", Value.vDict [])]
        = Value.vDict [("cleanser", Value.vDict [])]
    ∧ normalizeRoutine (Value.vDict [("routine", Value.vDict [("cleanser", Value.vDict [])])])
        = Except.ok (processEntries [("cleanser", Value.vDict [])] [])
    ∧ processEntries [("cleanser", Value.vDict [])] []
        = emitFrom 0 (acceptedSteps [("cleanser", Value.vDict [])]) :=
  ⟨by decide,
   normalizer_collection_selection.1 _ (by decide),
   normalizer_collection_selection.2.1 _ (by decide) (by decide),
   normalizer_collection_selection.2.2.1 _ (by decide) (by decide),
   normalizer_collection_selection.2.2.2.1 _ _ rfl,
   normalizer_collection_selection.2.2.2.2 _⟩

/-- Claim C2 (amended): when the parsed response is a mapping, every step the
Normalizer emits carries all of the required fields. -/
theorem normalizer_steps_have_required_fields :
    ∀ entries steps, normalizeRoutine (Value.vDict entries) = Except.ok steps →
      ∀ s, s ∈ steps → hasAllRequired s = true := by
  intro entries steps h s hs
  have heq : normalizeRoutine (Value.vDict entries)
      = match chooseCollection entries with
        | Value.vDict se => Except.ok (processEntries se [])
        | v => Except.error (PyErr.attributeError
            ("\x27" ++ pyTypeName v ++ "\x27 object has no attribute \x27items\x27")) := rfl
  rw [heq] at h
  cases hc : chooseCollection entries with
  | vDict se =>
    rw [hc] at h
    simp only [Except.ok.injEq] at h
    subst h
    rw [processEntries_eq se []] at hs
    simp only [List.length_nil, List.nil_append] at hs
    exact emitFrom_hasAll (acceptedSteps se) 0 s hs
  | vNull => rw [hc] at h; cases h
  | vBool b => rw [hc] at h; cases h
  | vInt n => rw [hc] at h; cases h
  | vStr str => rw [hc] at h; cases h
  | vDatetime iso => rw [hc] at h; cases h
  | vList xs => rw [hc] at h; cases h

/-- Witness for the amended C2 at a concrete mapping input: the single
emitted step carries every required field. -/
theorem normalizer_steps_have_required_fields_witness :
    hasAllRequired (Value.vDict (fillMissing "cleanser" 0 [])) = true :=
  normalizer_steps_have_required_fields [("cleanser", Value.vDict [])]
    [Value.vDict (fillMissing "cleanser" 0 [])] rfl _ (by simp)

/-- Claim C3 counterexample: when the value under `"routine"` is not a mapping,
the normalization block raises (`"hello".items()` is an `AttributeError`)
instead of completing. -/
theorem normalizer_nonmapping_collection_raises :
    normalizeRoutine (Value.vDict [("routine", Value.vStr "hello")])
      = Except.error (PyErr.attributeError
          "\x27str\x27 object has no attribute \x27items\x27") := rfl

/-- Claim C3 (amended): individual non-mapping step entries are dropped while the
dict-valued siblings are all kept; normalization completes without an
exception whenever the chosen collection is a mapping, but raises when the
collection found under `"routine"`/`"skincare_routine"` is not a mapping. -/
theorem normalizer_drop_policy :
    (∀ stepEntries, (processEntries stepEntries []).length
      = stepEntries.countP (fun kv => kv.2.isDict))
    ∧ (∀ entries stepEntries, chooseCollection entries = Value.vDict stepEntries →
      normalizeRoutine (Value.vDict entries) = Except.ok (processEntries stepEntries []))
    ∧ (∀ entries, (chooseCollection entries).isDict = false →
      ∃ e, normalizeRoutine (Value.vDict entries) = Except.error e) := by
  refine ⟨?_, normalizeRoutine_of_dict_coll, normalizeRoutine_of_nondict_coll⟩
  intro stepEntries
  rw [processEntries_eq stepEntries []]
  simp [emitFrom_length, acceptedSteps_length]

/-- Witness for the amended C3: a string-valued sibling is dropped while
the dict-valued one is kept; a dict collection normalizes successfully; a
list collection under `"skincare_routine"` raises. -/
theorem normalizer_drop_policy_witness :
    (processEntries [("junk", Value.vStr "x"), ("cleanser", Value.vDict [])] []).length = 1
    ∧ normalizeRoutine (Value.vDict [("routine", Value.vDict [("cleanser", Value.vDict [])])])
      = Except.ok (processEntries [("cleanser", Value.vDict [])] [])
    ∧ (∃ e, normalizeRoutine (Value.vDict [("skincare_routine", Value.vList [])])
      = Except.error e) :=
  ⟨(normalizer_drop_policy.1 _).trans (by decide),
   normalizer_drop_policy.2.1 _ _ rfl,
   normalizer_drop_policy.2.2 _ (by decide)⟩

theorem dictGetD_of_hasKey_false (es : List (String × Value)) (k : String) (d : Value)
    (h : dictHasKey es k = false) : dictGetD es k d = d := by
  rw [dictHasKey_eq_isSome] at h
  unfold dictGetD
  cases hf : es.find? (fun kv => kv.1 == k) with
  | none => rfl
  | some kv => rw [hf] at h; simp at h

/-- Claim C8: whenever the LLM reply is empty after trimming and fence-stripping,
the attempt fails with the empty-response `ValueError`, and
`get_routine_for_user` surfaces it as `HTTPException(500)` with the exact
detail string `"Failed to create skincare routine"`. -/
theorem empty_response_server_error (llm : String → String)
    (jsonLoads : String → Option Value) (fd : FormData) (recs : Value)
    (h : stripFences (llm (buildPrompt fd (sanitize recs))) = "") :
    routineAttempt llm jsonLoads true (buildPrompt fd (sanitize recs))
      = Except.error (PyErr.valueError "Received an empty response from the AI model.")
    ∧ get_routine_for_user llm jsonLoads true fd recs
      = Except.error ⟨500, "Failed to create skincare routine"⟩ := by
  constructor
  · unfold routineAttempt
    simp [h]
  · unfold get_routine_for_user routineAttempt
    simp [h]

/-- Witness for C8: an LLM stub replying with a bare fenced `json` block
strips to the empty string and yields the 500 with the generic message. -/
theorem empty_response_server_error_witness :
    stripFences ((fun _ => "```json```") (buildPrompt fdSample (sanitize (Value.vDict [])))) = ""
    ∧ get_routine_for_user (fun _ => "```json```") (fun _ => none) true fdSample (Value.vDict [])
      = Except.error ⟨500, "Failed to create skincare routine"⟩ :=
  ⟨by decide,
   (empty_response_server_error (fun _ => "```json```") (fun _ => none) fdSample
      (Value.vDict []) (by decide)).2⟩

/-- Claim C9: prompt construction is deterministic: the prompt text is a pure
function of the user profile and the sanitized recommendations (insertion
order included, since a recommendations value fixes its entry order), so
equal inputs give character-for-character equal prompts. -/
theorem prompt_builder_deterministic (fd1 fd2 : FormData) (recs1 recs2 : Value)
    (h1 : fd1 = fd2) (h2 : recs1 = recs2) :
    buildPrompt fd1 recs1 = buildPrompt fd2 recs2 := by
  rw [h1, h2]

/-- Witness for C9 at concrete inputs. -/
theorem prompt_builder_deterministic_witness :
    buildPrompt fdSample (Value.vDict [("cleanser", Value.vDict [("name", Value.vStr "X")])])
      = buildPrompt fdSample (Value.vDict [("cleanser", Value.vDict [("name", Value.vStr "X")])]) :=
  prompt_builder_deterministic fdSample fdSample _ _ rfl rfl

/-- Claim C1 counterexample: with fully valid form data and an empty
`product_recommendations` mapping, `create_routine` does NOT surface a
400-class client error: the blanket handler converts the raised 400 into a
500 server error whose detail wraps the original message. -/
theorem empty_recommendations_counterexample :
    create_routine (fun _ => "") (fun _ => none) true payloadNoRecs
      = Except.error ⟨500,
          "Failed to create skincare routine: 400: No product recommendations provided"⟩ := rfl

/-- Claim C1 (amended): for every payload whose form data validates and whose
`product_recommendations` value is empty (falsy), the missing-input check
raises the 400 `HTTPException`, but the surrounding catch-all re-raises it
as a 500 server error with detail
`"Failed to create skincare routine: 400: No product recommendations
provided"`; with invalid form data the validation failure preempts the
missing-input check entirely. -/
theorem empty_recommendations_server_error (llm : String → String)
    (jsonLoads : String → Option Value) (modelAvailable : Bool)
    (data : List (String × Value)) (fd : FormData)
    (h1 : parseFormData (dictGetD data "form_data" (Value.vDict [])) = Except.ok fd)
    (h2 : pyFalsy (dictGetD data "product_recommendations" (Value.vDict [])) = true) :
    create_routine llm jsonLoads modelAvailable data
      = Except.error ⟨500,
          "Failed to create skincare routine: 400: No product recommendations provided"⟩ := by
  unfold create_routine create_routine_inner
  rw [h1]
  simp only [h2, if_true]
  rfl

/-- Witness for the amended C1 at the concrete empty-recommendations
payload. -/
theorem empty_recommendations_server_error_witness :
    parseFormData (dictGetD payloadNoRecs "form_data" (Value.vDict []))
      = Except.ok ⟨["oily"], [], [], [], ["hydration"], none⟩
    ∧ pyFalsy (dictGetD payloadNoRecs "product_recommendations" (Value.vDict [])) = true
    ∧ create_routine (fun _ => "") (fun _ => none) false payloadNoRecs
      = Except.error ⟨500,
          "Failed to create skincare routine: 400: No product recommendations provided"⟩ :=
  ⟨rfl, by decide,
   empty_recommendations_server_error (fun _ => "") (fun _ => none) false payloadNoRecs
     ⟨["oily"], [], [], [], ["hydration"], none⟩ rfl (by decide)⟩

/-- Claim C2 counterexample: when the parsed LLM response is a list, its elements
are returned by `create_routine` exactly as parsed, with no field filling:
a step with no fields at all appears in the result. -/
theorem createRoutine_list_passthrough_counterexample :
    create_routine (fun _ => "x") (fun _ => some (Value.vList [Value.vDict []])) true
        payloadWithRecs
      = Except.ok (Value.vDict [("product_type", Value.vStr "custom"),
          ("routine", Value.vList [Value.vDict []])])
    ∧ hasAllRequired (Value.vDict []) = false :=
  ⟨rfl, by decide⟩

/-- Claim C10: a payload with no `product_recommendations` key behaves exactly
like the same payload with that key set to an empty mapping: the `get`
default makes absence and emptiness indistinguishable. -/
theorem absent_recommendations_key_defaults (llm : String → String)
    (jsonLoads : String → Option Value) (modelAvailable : Bool)
    (data : List (String × Value))
    (h : dictHasKey data "product_recommendations" = false) :
    create_routine llm jsonLoads modelAvailable data
      = create_routine llm jsonLoads modelAvailable
          (dictSet data "product_recommendations" (Value.vDict [])) := by
  unfold create_routine create_routine_inner
  rw [dictGetD_dictSet_ne _ _ _ _ _
      (by decide : "form_data" ≠ "product_recommendations"),
    dictGetD_dictSet_self, dictGetD_of_hasKey_false _ _ _ h]

/-- Witness for C10 at a concrete payload lacking the key. -/
theorem absent_recommendations_key_defaults_witness :
    dictHasKey [("form_data", Value.vDict [])] "product_recommendations" = false
    ∧ create_routine (fun _ => "") (fun _ => none) true [("form_data", Value.vDict [])]
      = create_routine (fun _ => "") (fun _ => none) true
          (dictSet [("form_data", Value.vDict [])] "product_recommendations" (Value.vDict [])) :=
  ⟨by decide,
   absent_recommendations_key_defaults (fun _ => "") (fun _ => none) true _ (by decide)⟩
